/-
Verification of the multi-agent research pipeline (Planner / Researcher /
Synthesizer orchestration).

The development shallowly embeds the text-processing and control-flow core of
the repository:

* `PlannerAgent._extract_questions` (src/agents.py, lines 68-101): regex-free
  re-statement of the bracket-list extraction and the line-based fallback,
  working directly on character lists.
* `SearchAgent.research_question` (src/agents.py, lines 114-178),
  `SimpleSearchAgent.research_question` (src/simple_research.py, lines 20-58),
  `GoogleSearchAgent.research_question` (src/google_search_research.py,
  lines 20-90): each researcher strategy is a function of the responses the
  underlying generation calls would produce (`GenResponse.ok text` for a
  normal return, `GenResponse.err msg` for a raised exception), returning the
  finding together with the number of fallback (for researchers) or outbound
  (for the synthesizer) calls issued.
* `SynthesizerAgent.create_final_report` and
  `SynthesizerAgent._compile_research_notes` (src/agents.py, lines 191-265).
* `conduct_research` (src/main.py, lines 58-108; the logic of
  src/simple_research.py lines 102-146 and src/google_search_research.py
  lines 134-178 is identical up to sleep durations): the orchestrator is a
  function of the initialization flag, the plan the Planner returns, the
  per-question behaviour of the Researcher strategy and the response to the
  Synthesizer's generation call.  It returns the report string together with
  a `RunTrace` recording which sub-agents were invoked and with what
  arguments.
-/
import Mathlib

set_option maxRecDepth 4000

/-! ## Basic character-list utilities (Python string primitives) -/

/-- The double-quote character. -/
def dquote : Char := Char.ofNat 34

/-- The single-quote character. -/
def squote : Char := Char.ofNat 39

/-- ASCII whitespace, as stripped by Python's `str.strip()` / matched by
regex `\s` (restricted to the ASCII range). -/
def isSpace (c : Char) : Bool :=
  c == ' ' || c == Char.ofNat 9 || c == Char.ofNat 10 || c == Char.ofNat 13 ||
  c == Char.ofNat 12 || c == Char.ofNat 11

/-- Python `str.strip()` on a character list. -/
def trimCs (cs : List Char) : List Char :=
  ((cs.dropWhile isSpace).reverse.dropWhile isSpace).reverse

/-- Python `str.strip('"\'')`: remove leading and trailing quote characters. -/
def isQuoteChar (c : Char) : Bool := c == dquote || c == squote

/-- Strip quote characters from both ends of a character list. -/
def stripQuotes (cs : List Char) : List Char :=
  ((cs.dropWhile isQuoteChar).reverse.dropWhile isQuoteChar).reverse

/-- Python `str.split(sep)` for a one-character separator: splits on every
occurrence, keeping empty pieces (so `"".split(sep) = [""]`). -/
def splitOnChar (sep : Char) : List Char → List (List Char)
  | [] => [[]]
  | c :: rest =>
    match splitOnChar sep rest with
    | [] => [[]]
    | h :: t => if c == sep then [] :: h :: t else (c :: h) :: t

/-- Does `pre` lead (i.e. begin) the list `cs`? (Python `str.startswith`.) -/
def leadsWith : List Char → List Char → Bool
  | [], _ => true
  | _ :: _, [] => false
  | a :: as, b :: bs => a == b && leadsWith as bs

/-- Substring occurrence helper: does `pat` occur contiguously in `cs`? -/
def containsSub (pat : List Char) : List Char → Bool
  | [] => pat.isEmpty
  | c :: rest => leadsWith pat (c :: rest) || containsSub pat rest

/-- Python's `pat in s` substring test. -/
def strContains (s pat : String) : Bool := containsSub pat.data s.data

/-- The outcome of one `model.generate_content` call: `ok text` when the call
returns (with `response.text = text`, possibly empty), `err msg` when it
raises an exception whose string form is `msg`. -/
inductive GenResponse where
  | ok (text : String)
  | err (msg : String)
deriving DecidableEq

/-! ## PlannerAgent._extract_questions (src/agents.py, lines 68-101) -/

/-- The regex `re.search(r'\[(.*?)\]', text, re.DOTALL)`: the content between
the first `[` of the text and the first `]` after it, or `none` when no such
pair exists.  (If the first `[` has no later `]`, no later `[` can have one
either, so the search fails.) -/
def firstBracketContent : List Char → Option (List Char)
  | [] => none
  | c :: rest =>
    if c == '[' then
      if rest.contains ']' then some (rest.takeWhile (fun d => !(d == ']')))
      else none
    else firstBracketContent rest

/-- `line.startswith(('1.', '2.', '3.', '4.', '5.'))`. -/
def startsWithOrdinal (l : List Char) : Bool :=
  match l with
  | d :: dot :: _ =>
    (d == '1' || d == '2' || d == '3' || d == '4' || d == '5') && dot == '.'
  | _ => false

/-- `line.startswith(('-', '*'))`. -/
def startsWithBullet (l : List Char) : Bool :=
  match l with
  | c :: _ => c == '-' || c == '*'
  | [] => false

/-- The fallback keep-condition on a stripped line: leading ordinal marker,
leading bullet marker, or a question mark in a line longer than 20
characters. -/
def isQuestionLine (l : List Char) : Bool :=
  startsWithOrdinal l || startsWithBullet l ||
    (l.contains '?' && decide (20 < l.length))

/-- `re.sub(r'^\d+\.\s*', '', line)`: remove a leading run of digits followed
by a dot and any whitespace.  Greedy `\d+` with a mandatory `\.` matches
exactly when the maximal digit run is nonempty and followed by a dot. -/
def stripOrdinal (l : List Char) : List Char :=
  let ds := l.takeWhile Char.isDigit
  if ds.isEmpty then l
  else
    match l.drop ds.length with
    | '.' :: tail => tail.dropWhile isSpace
    | _ => l

/-- `re.sub(r'^[-*]\s*', '', line)`: remove a leading bullet marker and any
whitespace after it. -/
def stripBullet (l : List Char) : List Char :=
  match l with
  | c :: rest => if c == '-' || c == '*' then rest.dropWhile isSpace else l
  | [] => []

/-- One iteration of the fallback loop body: strip the line, test the marker
condition, clean the markers and quotes, and keep the result when nonempty. -/
def cleanLine (line : List Char) : Option String :=
  let l := trimCs line
  if isQuestionLine l then
    let c := stripQuotes (stripBullet (stripOrdinal l))
    if c.isEmpty then none else some (String.mk c)
  else none

/-- `PlannerAgent._extract_questions` (src/agents.py, lines 68-101): try the
bracket-list path first (split the bracket content on commas, strip
whitespace and quotes, keep pieces longer than 10 characters); otherwise fall
back to per-line marker extraction capped at 5 entries. -/
def PlannerAgent._extract_questions (response_text : String) : List String :=
  match firstBracketContent response_text.data with
  | some content =>
    ((splitOnChar ',' content).map (fun q => stripQuotes (trimCs q))).filterMap
      (fun q => if 10 < q.length then some (String.mk q) else none)
  | none =>
    ((splitOnChar (Char.ofNat 10) response_text.data).filterMap cleanLine).take 5

/-- `PlannerAgent.create_research_plan` (src/agents.py, lines 20-66) as a
function of the model's response to the planning prompt: on success, extract
questions from the stripped response text (an empty extraction is returned as
the empty plan); on an exception, return the empty plan. -/
def PlannerAgent.create_research_plan (resp : GenResponse) : List String :=
  match resp with
  | .ok t => PlannerAgent._extract_questions (String.mk (trimCs t.data))
  | .err _ => []

/-! ## Researcher strategies -/

/-- The substring the `SearchAgent` fallback policy looks for in a raised
exception (src/agents.py, line 158). -/
def searchGroundingMsg : String := "Search Grounding is not supported"

/-- `SearchAgent.research_question` (src/agents.py, lines 114-178) as a
function of the primary (grounded) call's outcome and the fallback
(ungrounded) call's outcome.  Returns the finding together with the number of
fallback calls issued: on a primary exception whose message contains the
grounding-unsupported substring, one fallback call is made (its text, or `""`
if it is empty or the call raises); on any other primary exception, no
fallback call is made and the finding is empty. -/
def SearchAgent.research_question (primary fallback : GenResponse) :
    String × Nat :=
  match primary with
  | .ok t => (t, 0)
  | .err msg =>
    if strContains msg searchGroundingMsg then
      match fallback with
      | .ok t => (t, 1)
      | .err _ => ("", 1)
    else ("", 0)

/-- `SimpleSearchAgent.research_question` (src/simple_research.py,
lines 20-58): a single ungrounded call; an exception yields the empty
finding. -/
def SimpleSearchAgent.research_question (resp : GenResponse) : String :=
  match resp with
  | .ok t => t
  | .err _ => ""

/-- `GoogleSearchAgent.research_question` (src/google_search_research.py,
lines 20-90): the grounded call is tried first; on an exception of any kind,
or on empty response text, one ungrounded fallback call is made (a fallback
exception is caught by the outer handler and yields the empty finding).
Returns the finding together with the number of fallback calls issued. -/
def GoogleSearchAgent.research_question (primary fallback : GenResponse) :
    String × Nat :=
  match primary with
  | .ok t =>
    if t == "" then
      match fallback with
      | .ok u => (u, 1)
      | .err _ => ("", 1)
    else (t, 0)
  | .err _ =>
    match fallback with
    | .ok u => (u, 1)
    | .err _ => ("", 1)

/-! ## SynthesizerAgent (src/agents.py, lines 181-265) -/

/-- One section of the compiled research notes, as produced by the f-string
in `_compile_research_notes` for index `i`. -/
def researchNote (i : Nat) (question data : String) : String :=
  "\n### Research Question " ++ toString i ++ ": " ++ question ++
  "\n\n**Research Findings:**\n" ++ data ++ "\n\n---\n"

/-- `SynthesizerAgent._compile_research_notes` (src/agents.py,
lines 243-265): the concatenation, in input order, of the formatted sections
numbered from 1. -/
def SynthesizerAgent._compile_research_notes
    (research_results : List (String × String)) : String :=
  (research_results.enumFrom 1).foldl
    (fun acc p => acc ++ researchNote p.1 p.2.1 p.2.2) ""

/-- The synthesis prompt built by `create_final_report` (src/agents.py,
lines 210-228), with the topic and compiled notes interpolated. -/
def synthesisPrompt (topic notes : String) : String :=
  "\nYou are an expert research analyst and technical writer. Your task is to synthesize\n" ++
  "the provided research notes into a comprehensive, well-structured report on the topic: \"" ++
  topic ++ "\".\n\nReport Requirements:\n" ++
  "1. Create a professional, informative report\n" ++
  "2. Include an introduction that sets the context\n" ++
  "3. Organize findings into logical sections with clear headings\n" ++
  "4. Synthesize information from multiple sources into coherent insights\n" ++
  "5. Include a conclusion that summarizes key findings\n" ++
  "6. Use only the information provided in the research notes\n" ++
  "7. Write in a clear, professional tone\n" ++
  "8. Ensure the report flows logically from section to section\n\n" ++
  "## Research Notes ##\n" ++ notes ++
  "\n\nPlease create a comprehensive report that effectively communicates the research findings.\n"

/-- `SynthesizerAgent.create_final_report` (src/agents.py, lines 191-241) as
a function of the model's behaviour `gen` on the synthesis prompt.  Returns
the report together with the number of generation calls issued: an empty
results list short-circuits to the no-data sentinel with zero calls; otherwise
exactly one call is issued, and an empty response text or an exception yields
the generation-failure sentinel. -/
def SynthesizerAgent.create_final_report (topic : String)
    (research_results : List (String × String)) (gen : String → GenResponse) :
    String × Nat :=
  if research_results = [] then
    ("Error: No research data available to synthesize.", 0)
  else
    let notes := SynthesizerAgent._compile_research_notes research_results
    match gen (synthesisPrompt topic notes) with
    | .ok t =>
      (if t == "" then "Error: Could not generate the final report." else t, 1)
    | .err _ => ("Error: Could not generate the final report.", 1)

/-! ## Orchestrator (src/main.py, lines 58-108) -/

/-- The sentinel returned by `conduct_research` when the model handle was
never initialized (src/main.py, line 69). -/
def notInitializedMsg : String :=
  "Error: System not initialized. Please run initialize() first."

/-- The sentinel returned when the Planner produced an empty plan
(src/main.py, line 80). -/
def noPlanMsg : String :=
  "❌ Could not create a research plan. Please try a different topic."

/-- The sentinel returned when no question yielded a finding
(src/main.py, line 101). -/
def noFindingsMsg : String :=
  "❌ Could not find any information during research. Please try a different topic."

/-- Record of which sub-agents a `conduct_research` run invoked:
how many times the Planner was called, the questions passed to the
Researcher (in order), and the `(topic, results)` argument pairs passed to
the Synthesizer. -/
structure RunTrace where
  plannerCalls : Nat
  researcherCalls : List String
  synthesizerCalls : List (String × List (String × String))
deriving DecidableEq

/-- The research loop of `conduct_research` (src/main.py, lines 85-98):
starting from the empty list, append `(question, finding)` for each question
of the plan, in order, exactly when the finding is non-empty. -/
def collectResults (plan : List String) (research : String → String) :
    List (String × String) :=
  plan.foldl
    (fun acc q => if research q = "" then acc else acc ++ [(q, research q)]) []

/-- `MultiAgentResearchAssistant.conduct_research` (src/main.py,
lines 58-108; `SimpleMultiAgentResearchAssistant.conduct_research` and
`GoogleSearchResearchAssistant.conduct_research` are identical up to sleep
durations), parameterized by the initialization state, the plan the Planner
returns, the Researcher strategy's per-question finding, and the model's
behaviour on the Synthesizer's prompt.  Returns the report string and the
trace of sub-agent invocations. -/
def conduct_research (initialized : Bool) (topic : String)
    (plan : List String) (research : String → String)
    (synthGen : String → GenResponse) : String × RunTrace :=
  if !initialized then (notInitializedMsg, ⟨0, [], []⟩)
  else if plan = [] then (noPlanMsg, ⟨1, [], []⟩)
  else
    let results := collectResults plan research
    if results = [] then (noFindingsMsg, ⟨1, plan, []⟩)
    else ((SynthesizerAgent.create_final_report topic results synthGen).1,
          ⟨1, plan, [(topic, results)]⟩)

/-- The concrete Researcher behaviour of the specification's end-to-end
example: question "Q1" yields finding "A1", every other question yields the
empty finding. -/
def exampleResearch : String → String :=
  fun q => if q = "Q1" then "A1" else ""

/-! ## Helper lemmas -/

/-- The research loop, started from an arbitrary accumulator, appends exactly
the pairs with a non-empty finding, in plan order. -/
theorem collectResults_go (research : String → String) (plan : List String) :
    ∀ acc : List (String × String),
      plan.foldl
        (fun acc q => if research q = "" then acc else acc ++ [(q, research q)])
        acc
        = acc ++ plan.filterMap
            (fun q => if research q = "" then none else some (q, research q)) := by
  induction plan with
  | nil => intro acc; simp
  | cons q rest ih =>
    intro acc
    by_cases h : research q = "" <;>
      simp [List.foldl_cons, List.filterMap_cons, h, ih]

/-- `collectResults` is the filterMap that keeps the questions with a
non-empty finding, paired with their findings. -/
theorem collectResults_eq (plan : List String) (research : String → String) :
    collectResults plan research
      = plan.filterMap
          (fun q => if research q = "" then none else some (q, research q)) := by
  simpa using collectResults_go research plan []

/-- If every question of the plan yields an empty finding, the research loop
accumulates nothing. -/
theorem collectResults_eq_nil (plan : List String) (research : String → String)
    (h : ∀ q ∈ plan, research q = "") : collectResults plan research = [] := by
  rw [collectResults_eq]
  exact List.filterMap_eq_nil_iff.mpr (fun q hq => by simp [h q hq])

/-! ## Claim theorems -/

/-- C1: for every topic, plan and assignment of findings to questions, a run
of the initialized orchestrator whose research loop collected at least one
pair invokes the Synthesizer exactly once, with exactly the
(question, finding) pairs whose finding is non-empty, in plan order. -/
theorem conduct_research_synthesizer_pairs (topic : String)
    (plan : List String) (research : String → String)
    (synthGen : String → GenResponse)
    (h : collectResults plan research ≠ []) :
    (conduct_research true topic plan research synthGen).2.synthesizerCalls
      = [(topic, plan.filterMap
            (fun q => if research q = "" then none else some (q, research q)))] := by
  have hp : plan ≠ [] := by
    rintro rfl
    exact h rfl
  have hall : ¬ ∀ a ∈ plan, research a = "" :=
    fun hA => h (collectResults_eq_nil plan research hA)
  simp [conduct_research, hp, collectResults_eq, hall]

/-- C1 witness: for the plan ["Q1", "Q2"] where researching "Q1" yields "A1"
and researching "Q2" yields the empty string, the Synthesizer is invoked with
exactly the one pair ("Q1", "A1"). -/
theorem conduct_research_synthesizer_pairs_witness :
    (conduct_research true "T" ["Q1", "Q2"] exampleResearch
        (fun _ => GenResponse.ok "R")).2.synthesizerCalls
      = [("T", [("Q1", "A1")])] :=
  (conduct_research_synthesizer_pairs "T" ["Q1", "Q2"] exampleResearch
      (fun _ => GenResponse.ok "R") (by decide)).trans (by decide)

/-- C2 counterexample: with the empty plan — where vacuously every question's
research yields an empty finding — the run returns the "could not create a
research plan" sentinel, which differs from the "no information found"
sentinel the claim names (the Synthesizer is still not invoked). -/
theorem conduct_research_empty_plan_cex :
    conduct_research true "T" [] (fun _ => "") (fun _ => GenResponse.ok "R")
      = (noPlanMsg, ⟨1, [], []⟩) ∧ noPlanMsg ≠ noFindingsMsg :=
  ⟨rfl, by decide⟩

/-- C2 (amended): the orchestrator never invokes the Synthesizer with an
empty results sequence, and for a NONEMPTY plan all of whose questions yield
an empty finding, the run returns the "no information found" sentinel with
the Synthesizer never invoked. -/
theorem conduct_research_no_empty_synthesis (initialized : Bool)
    (topic : String) (plan : List String) (research : String → String)
    (synthGen : String → GenResponse) :
    (∀ c ∈ (conduct_research initialized topic plan research
        synthGen).2.synthesizerCalls, c.2 ≠ []) ∧
    (plan ≠ [] → (∀ q ∈ plan, research q = "") →
      conduct_research true topic plan research synthGen
        = (noFindingsMsg, ⟨1, plan, []⟩)) := by
  constructor
  · intro c hc
    cases initialized with
    | false => simp [conduct_research] at hc
    | true =>
      by_cases hp : plan = []
      · simp [conduct_research, hp] at hc
      · by_cases hr : collectResults plan research = []
        · simp [conduct_research, hp, hr] at hc
        · simp [conduct_research, hp, hr] at hc
          subst hc
          exact hr
  · intro hp hall
    simp [conduct_research, hp, collectResults_eq_nil plan research hall]

/-- C2 witness: for the plan ["Q1"] where researching "Q1" yields the empty
string, the run ends with the "no information found" sentinel and the
Synthesizer is never invoked. -/
theorem conduct_research_no_empty_synthesis_witness :
    conduct_research true "T" ["Q1"] (fun _ => "")
        (fun _ => GenResponse.ok "R")
      = (noFindingsMsg, ⟨1, ["Q1"], []⟩) :=
  (conduct_research_no_empty_synthesis true "T" ["Q1"] (fun _ => "")
      (fun _ => GenResponse.ok "R")).2 (by decide) (fun _ _ => rfl)

/-- C3 counterexample: a bracketed list of six pieces, each longer than 10
characters, makes the bracket path return six questions — the claimed bound
of "length at most 5" fails (only the line-based fallback is capped at 5). -/
theorem extract_questions_six_cex :
    5 < (PlannerAgent._extract_questions
      "[aaaaaaaaaaaa, bbbbbbbbbbbb, cccccccccccc, dddddddddddd, eeeeeeeeeeee, ffffffffffff]").length := by
  decide

/-- C3 (amended): for every raw response text, when a bracket pair is found
every returned question has length greater than 10; when no bracket pair is
found, the line-based fallback returns at most 5 questions, each of them
non-empty. The length-at-most-5 cap does NOT apply to the bracket path. -/
theorem extract_questions_shape (s : String) :
    ((firstBracketContent s.data).isSome = true →
      ∀ q ∈ PlannerAgent._extract_questions s, 10 < q.length) ∧
    (firstBracketContent s.data = none →
      (PlannerAgent._extract_questions s).length ≤ 5 ∧
      ∀ q ∈ PlannerAgent._extract_questions s, q ≠ "") := by
  constructor
  · intro hb q hq
    obtain ⟨content, hfb⟩ := Option.isSome_iff_exists.mp hb
    simp only [PlannerAgent._extract_questions, hfb] at hq
    obtain ⟨q', _, hq'⟩ := List.mem_filterMap.mp hq
    split at hq'
    · next hlen =>
      obtain rfl := Option.some.inj hq'
      simpa [String.length] using hlen
    · exact absurd hq' (by simp)
  · intro hb
    simp only [PlannerAgent._extract_questions, hb]
    constructor
    · simp only [List.length_take]
      omega
    · intro q hq
      obtain ⟨line, _, hline⟩ := List.mem_filterMap.mp (List.mem_of_mem_take hq)
      simp only [cleanLine] at hline
      split at hline
      · split at hline
        · exact absurd hline (by simp)
        · next hne =>
          obtain rfl := Option.some.inj hline
          intro hcontra
          rw [String.ext_iff] at hcontra
          simp only [String.data] at hcontra
          rw [hcontra] at hne
          simp at hne
      · exact absurd hline (by simp)

/-- C3 witness: a bracket-path question longer than 10 characters, and a
line-path result of length at most 5, at concrete inputs. -/
theorem extract_questions_shape_witness :
    (10 < ("aaaaaaaaaaaa" : String).length) ∧
    (PlannerAgent._extract_questions "no markers").length ≤ 5 :=
  ⟨(extract_questions_shape "[aaaaaaaaaaaa]").1 (by decide) "aaaaaaaaaaaa"
      (by decide),
   ((extract_questions_shape "no markers").2 (by decide)).1⟩

/-- C4 counterexample: the bracket-path parser applied to the claimed input
does NOT return the three-element list of the claim: the pieces
"What is X?" (length 10) and "Why Z?" (length 6) fail the strictly-
greater-than-10 length filter. -/
theorem bracket_parsing_example_cex :
    PlannerAgent._extract_questions
        "[\"What is X?\", \"How does Y work?\", \"Why Z?\"]"
      ≠ ["What is X?", "How does Y work?", "Why Z?"] := by
  decide

/-- C4 (amended): the bracket-path parser applied to the claimed input
returns exactly the one-element list ["How does Y work?"] — the only piece
whose stripped length exceeds 10 characters ("What is X?" has length exactly
10 and "Why Z?" has length 6). -/
theorem bracket_parsing_example_amended :
    PlannerAgent._extract_questions
        "[\"What is X?\", \"How does Y work?\", \"Why Z?\"]"
      = ["How does Y work?"] ∧
    ("What is X?" : String).length = 10 ∧ ("Why Z?" : String).length = 6 := by
  decide

/-- C5 counterexample: in the `GoogleSearchAgent` grounded strategy, a
primary fault whose message does not contain the grounding-unsupported
substring still triggers exactly one fallback call — contradicting the
claimed "zero fallback calls on any other fault" for that strategy. -/
theorem grounded_fallback_policy_cex :
    strContains "429 quota exceeded" searchGroundingMsg = false ∧
    (GoogleSearchAgent.research_question (GenResponse.err "429 quota exceeded")
        (GenResponse.ok "some knowledge text")).2 = 1 :=
  ⟨by decide, rfl⟩

/-- C5 (amended): in the `SearchAgent` grounded strategy, a primary fault
containing the grounding-unsupported substring triggers exactly one fallback
call and any other fault triggers none, as claimed; in the
`GoogleSearchAgent` grounded strategy, every primary fault triggers exactly
one fallback call, regardless of its message. -/
theorem grounded_fallback_policy (m : String) (fb : GenResponse) :
    (SearchAgent.research_question (GenResponse.err m) fb).2
      = (if strContains m searchGroundingMsg then 1 else 0) ∧
    (GoogleSearchAgent.research_question (GenResponse.err m) fb).2 = 1 := by
  constructor
  · simp only [SearchAgent.research_question]
    split
    · cases fb <;> rfl
    · rfl
  · cases fb <;> rfl

/-- C6: no Researcher strategy propagates a fault: when the underlying call
raises (modelled by `GenResponse.err`), and the fallback — where one exists —
also raises or returns empty text, the strategy returns the empty finding as
a value. (In this embedding every strategy is a total function into `String`,
so no exception can escape past the contract.) -/
theorem research_question_never_raises (m fbMsg : String) :
    SimpleSearchAgent.research_question (GenResponse.err m) = "" ∧
    (SearchAgent.research_question (GenResponse.err m)
        (GenResponse.err fbMsg)).1 = "" ∧
    (SearchAgent.research_question (GenResponse.err m)
        (GenResponse.ok "")).1 = "" ∧
    (GoogleSearchAgent.research_question (GenResponse.err m)
        (GenResponse.err fbMsg)).1 = "" := by
  refine ⟨rfl, ?_, ?_, rfl⟩ <;>
  · simp only [SearchAgent.research_question]
    split <;> rfl

/-- C7: for every topic and every model behaviour, the Synthesizer called
with an empty results sequence returns the fixed "no data" sentinel
immediately, issuing zero outbound generation calls. -/
theorem create_final_report_empty_results (topic : String)
    (gen : String → GenResponse) :
    SynthesizerAgent.create_final_report topic [] gen
      = ("Error: No research data available to synthesize.", 0) := rfl

/-- C8: the line-based fallback parser, on an input with no bracket pair
whose lines are "1. What is X?", "- How does Y work?" and "Random text
without markers", returns the two cleaned questions in order and excludes the
unmarked line. -/
theorem fallback_parsing_example :
    PlannerAgent._extract_questions
        "1. What is X?\n- How does Y work?\nRandom text without markers"
      = ["What is X?", "How does Y work?"] := by
  decide

/-- C9: question extraction and notes compilation are deterministic pure
functions of their text inputs — two runs on the same input produce identical
outputs (both are total Lean functions of exactly their arguments, with no
other state). -/
theorem parsing_compilation_deterministic (s : String)
    (rs : List (String × String)) :
    PlannerAgent._extract_questions s = PlannerAgent._extract_questions s ∧
    SynthesizerAgent._compile_research_notes rs
      = SynthesizerAgent._compile_research_notes rs :=
  ⟨rfl, rfl⟩

/-- C10: for every topic, plan and sub-agent behaviour, calling
`conduct_research` on an orchestrator whose model handle was never
initialized returns the fixed "not initialized" error string, with zero
Planner calls, zero Researcher calls and zero Synthesizer calls. -/
theorem conduct_research_uninitialized (topic : String) (plan : List String)
    (research : String → String) (synthGen : String → GenResponse) :
    conduct_research false topic plan research synthGen
      = (notInitializedMsg, ⟨0, [], []⟩) := rfl
